import Mathlib

/-
Verification of the output-staging behaviour of `build_outputs.py`
(fredriknk/ssense-lte).

The script is a thin orchestration layer around an external CAD CLI.  We give
a shallow embedding of the parts with real decision logic: the directory
clearing routine `clear_dir`, the vendor packaging bridge `run_kikit_fab`
(including its interpreter lookup and its own clean loop), the 3D export step
`export_3d` with its tolerated exit codes, the production-folder selection in
`main`, and the README synthesis `render_readme_if_missing` together with a
faithful model of Python's `string.Template.safe_substitute`.

Filesystem effects are modelled explicitly: a directory is a list of direct
child entries, each carrying a flag saying whether its removal succeeds
(`removable`), so the per-entry try/except in `clear_dir` and the absence of
such handling in `run_kikit_fab` can both be expressed.  External processes
are modelled by an environment supplying exit codes and executable lookup
results.
-/

set_option maxRecDepth 8192

namespace BuildOutputs

/-- Python exception classes that the script can raise, kept structured so
that distinct exception types stay distinguishable in the model. -/
inductive PyErr where
  | fileNotFound (msg : String)
  | runtimeError (msg : String)
  | osError (entry : String)
deriving DecidableEq

/-- A direct child of a directory.  `isFileOrLink` mirrors
`entry.is_file() or entry.is_symlink()`; `removable` says whether the
corresponding `unlink`/`rmtree` call succeeds (an abstraction of the
filesystem's behaviour at that entry). -/
structure Entry where
  name : String
  isFileOrLink : Bool
  removable : Bool
deriving DecidableEq

/-- The state of one directory: whether it exists and, if so, its direct
children. -/
structure DirState where
  present : Bool
  entries : List Entry
deriving DecidableEq

/-- Result of `clear_dir`: the raised exception if any, the directory state
afterwards, and the warnings printed for entries that could not be removed. -/
structure ClearResult where
  err : Option PyErr
  state : DirState
  warnings : List String
deriving DecidableEq

/-- The body of the `for entry in path.iterdir()` loop of `clear_dir`:
each entry's removal is attempted inside `try`/`except`, a failure prints a
warning and the loop continues with the next entry.  Returns the entries that
survived together with the warnings, in loop order. -/
def clearEntries : List Entry → List Entry × List String
  | [] => ([], [])
  | e :: rest =>
    let r := clearEntries rest
    if e.removable then r
    else (e :: r.1, ("Warning: could not remove " ++ e.name) :: r.2)

/-- `clear_dir(path)` from `build_outputs.py`.  `parts` is
`path.resolve().parts`; `st` is the state of the directory at `path`.
Faithful to the source order: `path.mkdir(parents=True, exist_ok=True)` runs
first, then the shallow-path guard (`len(parts) < 3` raises RuntimeError),
then the best-effort removal loop. -/
def clear_dir (parts : List String) (st : DirState) : ClearResult :=
  let st1 : DirState := ⟨true, if st.present then st.entries else []⟩
  if parts.length < 3 then
    ⟨some (.runtimeError "Refusing to clear very shallow path"), st1, []⟩
  else
    let r := clearEntries st1.entries
    ⟨none, ⟨true, r.1⟩, r.2⟩

example : (clear_dir ["/", "a"] ⟨false, []⟩).err.isSome = true := by decide
example : (clear_dir ["/", "a"] ⟨false, []⟩).state.present = true := by decide
example :
    clear_dir ["/", "home", "x"] ⟨true, [⟨"f", true, true⟩]⟩ =
      ⟨none, ⟨true, []⟩, []⟩ := by decide
example :
    clear_dir ["/", "home", "x"] ⟨true, [⟨"f", true, false⟩, ⟨"g", false, true⟩]⟩ =
      ⟨none, ⟨true, [⟨"f", true, false⟩]⟩, ["Warning: could not remove f"]⟩ := by decide

/-- If every removal succeeds, the loop removes everything and prints no
warning. -/
theorem clearEntries_all_removable (es : List Entry)
    (h : ∀ e ∈ es, e.removable = true) : clearEntries es = ([], []) := by
  induction es with
  | nil => rfl
  | cons e rest ih =>
    have he : e.removable = true := h e (List.mem_cons_self e rest)
    have hr := ih (fun x hx => h x (List.mem_cons_of_mem e hx))
    simp [clearEntries, he, hr]

/-! ### Vendor packaging bridge (`_sanitize_vendor`, `find_kicad_python_from_kicad_cli`, `run_kikit_fab`) -/

/-- ASCII lowercasing, modelling Python `str.lower()` on the ASCII strings the
script deals with. -/
def pyLower (s : String) : String := String.mk (s.toList.map Char.toLower)

/-- Python `str.isspace` characters relevant to `str.strip()` (ASCII). -/
def pyIsSpace (c : Char) : Bool :=
  c = ' ' || c = '\t' || c = '\n' || c = '\r' || c = '\x0b' || c = '\x0c'

/-- Python `str.strip()`: drop whitespace from both ends. -/
def pyStrip (s : String) : String :=
  String.mk (((s.toList.dropWhile pyIsSpace).reverse.dropWhile pyIsSpace).reverse)

/-- The character class `[A-Za-z0-9_.-]` of `_sanitize_vendor`'s regex. -/
def sanitizeAllowed (c : Char) : Bool :=
  c.isAlpha || c.isDigit || c = '_' || c = '.' || c = '-'

/-- `re.sub(r'[^A-Za-z0-9_.-]+', '-', ·)`: each maximal run of disallowed
characters is replaced by a single `-`.  The boolean tracks whether the scan
is currently inside a disallowed run (in which case the `-` has already been
emitted for it). -/
def subDisallowedGo : Bool → List Char → List Char
  | _, [] => []
  | inRun, c :: rest =>
    if sanitizeAllowed c then c :: subDisallowedGo false rest
    else if inRun then subDisallowedGo true rest
    else '-' :: subDisallowedGo true rest

/-- `_sanitize_vendor(v)` = `re.sub(r'[^A-Za-z0-9_.-]+', '-', v.strip().lower())`. -/
def _sanitize_vendor (v : String) : String :=
  String.mk (subDisallowedGo false (pyLower (pyStrip v)).toList)

example : _sanitize_vendor "JLCPCB" = "jlcpcb" := by decide
example : _sanitize_vendor "My Vendor!" = "my-vendor-" := by decide
example : _sanitize_vendor "a  %$ b" = "a-b" := by decide

/-- Split a character list at every `/`, accumulating the current segment in
reverse. -/
def splitSlashGo (cur : List Char) : List Char → List (List Char)
  | [] => [cur.reverse]
  | c :: rest =>
    if c = '/' then cur.reverse :: splitSlashGo [] rest
    else splitSlashGo (c :: cur) rest

/-- `Path(p).with_name(n)` for slash-separated path strings: replace the last
path component by `n`. -/
def withName (p n : String) : String :=
  String.intercalate "/" (((splitSlashGo [] p.toList).map String.mk).dropLast ++ [n])

example : withName "/opt/kicad/bin/kicad-cli" "python" = "/opt/kicad/bin/python" := rfl
example : withName "kicad-cli" "python.exe" = "python.exe" := rfl

/-- The environment an invocation runs in: `shutil.which` lookups, plain file
existence probes, and the exit code the external tool returns for a given
command line. -/
structure Env where
  which : String → Option String
  fileExists : String → Bool
  runExit : List String → Nat

/-- `find_kicad_python_from_kicad_cli` from `build_outputs.py`: sibling
`python.exe`, then sibling `python`, then `shutil.which("python")`, then
`shutil.which("python3")`, else FileNotFoundError. -/
def find_kicad_python_from_kicad_cli (env : Env) (kicad_cli_path : String) :
    Except PyErr String :=
  let cand := withName kicad_cli_path "python.exe"
  if env.fileExists cand then .ok cand
  else
    let cand2 := withName kicad_cli_path "python"
    if env.fileExists cand2 then .ok cand2
    else
      match env.which "python" with
      | some py => .ok py
      | none =>
        match env.which "python3" with
        | some py => .ok py
        | none => .error (.fileNotFound "Could not locate a Python interpreter to run KiKit.")

/-- `run(cmd, ok_codes)` from `build_outputs.py`: raises RuntimeError when the
exit code is not in the accepted set. -/
def run (exitCode : Nat) (ok_codes : List Nat) : Except String Unit :=
  if exitCode ∈ ok_codes then Except.ok ()
  else Except.error ("Command failed with code " ++ toString exitCode)

/-- The `if clean:` loop of `run_kikit_fab`:
`(e.unlink if e.is_file() or e.is_symlink() else shutil.rmtree)(e)` for each
entry, with no try/except — the first failing removal raises, leaving that
entry and all later ones untouched.  Returns the raised error (if any) and the
entries still present afterwards. -/
def kikitClean : List Entry → Option PyErr × List Entry
  | [] => (none, [])
  | e :: rest =>
    if e.removable then kikitClean rest
    else (some (.osError e.name), e :: rest)

/-- Observable outcome of `run_kikit_fab`: raised error, the vendor subfolder
name actually used (none if execution never reached its creation), the state
of that subfolder's direct children, the interpreter chosen, the command line
passed to `run`, and the returned zip path. -/
structure KikitResult where
  err : Option PyErr
  vendorRoot : Option String
  dirEntries : List Entry
  interpreter : Option String
  cmd : Option (List String)
  ret : Option String
deriving DecidableEq

/-- `run_kikit_fab(vendor, pcb_path, sch_path, out_dir, order_field, clean)`
from `build_outputs.py`.  `preEntries` is the prior content of the vendor
subfolder (`ensure_dir` supplies `[]` when it did not exist).  Source order:
default the order field, `shutil.which("python")` (FileNotFoundError when
absent), create `<out_dir>/<vendor.lower()>_production`, optionally clean it
entry by entry, then build and run the kikit command, returning
`vendor_root / "gerbers.zip"`. -/
def run_kikit_fab (env : Env) (vendor : String) (pcb_path sch_path out_dir : String)
    (order_field : Option String) (clean : Bool) (preEntries : List Entry) : KikitResult :=
  let field :=
    match order_field with
    | none => if pyLower vendor = "jlcpcb" then "LCSC" else "MPN"
    | some f => f
  match env.which "python" with
  | none =>
    ⟨some (.fileNotFound "Python interpreter not found on PATH."),
      none, preEntries, none, none, none⟩
  | some python =>
    let vname := pyLower vendor ++ "_production"
    let cleaned := if clean then kikitClean preEntries else (none, preEntries)
    match cleaned.1 with
    | some e => ⟨some e, some vname, cleaned.2, some python, none, none⟩
    | none =>
      let cmd := [python, "-m", "kikit.ui", "fab", vendor, "--assembly",
          "--schematic", sch_path]
        ++ (if field ≠ "" then ["--field", field] else [])
        ++ [pcb_path, out_dir ++ "/" ++ vname]
      match run (env.runExit cmd) [0] with
      | .error msg =>
        ⟨some (.runtimeError msg), some vname, cleaned.2, some python, some cmd, none⟩
      | .ok _ =>
        ⟨none, some vname, cleaned.2, some python, some cmd,
          some (out_dir ++ "/" ++ vname ++ "/gerbers.zip")⟩

/-! ### 3D export (`export_3d`) and the step ordering of `main` -/

/-- Behaviour of the external tool during `export_3d`: the exit code of the
STEP invocation, whether the STEP file exists afterwards, and the same for
the optional GLB invocation. -/
structure ToolBehavior where
  stepExit : Nat
  stepProduced : Bool
  glbExit : Nat
  glbProduced : Bool
deriving DecidableEq

/-- `export_3d(kicad, pcb_path, out_dir, make_glb)` from `build_outputs.py`:
run the STEP export accepting exit codes `{0, 2}`, then raise RuntimeError if
the STEP file does not exist, then optionally run the GLB export accepting
`{0, 2}` with no file check, and return the STEP path. -/
def export_3d (tb : ToolBehavior) (make_glb : Bool) (stem : String) :
    Except String String :=
  match run tb.stepExit [0, 2] with
  | .error e => .error e
  | .ok _ =>
    if !tb.stepProduced then .error "STEP export did not produce a file."
    else if make_glb then
      match run tb.glbExit [0, 2] with
      | .error e => .error e
      | .ok _ => .ok (stem ++ ".step")
    else .ok (stem ++ ".step")

/-- Which export steps of `main` ran, and the error that stopped the run. -/
structure PipelineResult where
  executed : List String
  err : Option String
deriving DecidableEq

/-- The export-step sequence of `main`: `export_3d`, `export_pictures`,
`export_docs`, `export_fab`, in that order; an exception from any step aborts
the run and no later step executes.  The later steps' outcomes are abstract
parameters. -/
def mainExports (tb : ToolBehavior) (make_glb : Bool) (stem : String)
    (pics docs fab : Except String Unit) : PipelineResult :=
  match export_3d tb make_glb stem with
  | .error e => ⟨["export_3d"], some e⟩
  | .ok _ =>
    match pics with
    | .error e => ⟨["export_3d", "export_pictures"], some e⟩
    | .ok _ =>
      match docs with
      | .error e => ⟨["export_3d", "export_pictures", "export_docs"], some e⟩
      | .ok _ =>
        match fab with
        | .error e =>
          ⟨["export_3d", "export_pictures", "export_docs", "export_fab"], some e⟩
        | .ok _ =>
          ⟨["export_3d", "export_pictures", "export_docs", "export_fab"], none⟩

example :
    mainExports ⟨2, false, 0, false⟩ false "demo" (.ok ()) (.ok ()) (.ok ()) =
      ⟨["export_3d"], some "STEP export did not produce a file."⟩ := by decide
example :
    mainExports ⟨2, true, 0, false⟩ false "demo" (.ok ()) (.ok ()) (.ok ()) =
      ⟨["export_3d", "export_pictures", "export_docs", "export_fab"], none⟩ := by decide
example : export_3d ⟨0, true, 2, false⟩ true "demo" = .ok "demo.step" := rfl
example : export_3d ⟨3, true, 0, true⟩ false "demo" =
    .error "Command failed with code 3" := rfl

/-! ### Production folder selection in `main` (`timestamp_tag`) -/

/-- Zero-padded decimal rendering of width `w`, as `strftime` produces for
`%Y`/`%m`/`%d`/`%H`/`%M`. -/
def padNum (w n : Nat) : String :=
  String.mk (List.replicate (w - (toString n).length) '0') ++ toString n

/-- The wall-clock instant `datetime.now()` observed by a run. -/
structure Clock where
  year : Nat
  month : Nat
  day : Nat
  hour : Nat
  minute : Nat
  second : Nat
deriving DecidableEq

/-- `timestamp_tag()` = `datetime.now().strftime("%Y%m%d_%H%M")`. -/
def timestamp_tag (c : Clock) : String :=
  padNum 4 c.year ++ padNum 2 c.month ++ padNum 2 c.day ++ "_"
    ++ padNum 2 c.hour ++ padNum 2 c.minute

example : timestamp_tag ⟨2025, 1, 15, 13, 42, 57⟩ = "20250115_1342" := by decide

/-- Outcome of the production-folder selection in `main`: the resolved path
(as segments), whether the branch calls `clear_dir`, the resulting directory
state, and the error raised by the clear, if any. -/
structure ProdSetup where
  pathParts : List String
  clearCalled : Bool
  state : DirState
  err : Option PyErr
deriving DecidableEq

/-- The production-folder policy of `main`: with `--no-timestamp`,
`prod_root = ensure_dir(root / prod_dir / proj_stem)` followed by
`clear_dir(prod_root)`; otherwise
`prod_root = ensure_dir(root / prod_dir / f"{timestamp_tag()}_{proj_stem}")`
with no clear.  `rootParts` is the resolved root path as segments; `st` is the
prior state of the selected directory. -/
def productionSetup (no_timestamp : Bool) (rootParts : List String)
    (prod_dir proj_stem : String) (c : Clock) (st : DirState) : ProdSetup :=
  if no_timestamp then
    let parts := rootParts ++ [prod_dir, proj_stem]
    let st1 : DirState := ⟨true, if st.present then st.entries else []⟩
    let r := clear_dir parts st1
    ⟨parts, true, r.state, r.err⟩
  else
    let parts := rootParts ++ [prod_dir, timestamp_tag c ++ "_" ++ proj_stem]
    ⟨parts, false, ⟨true, if st.present then st.entries else []⟩, none⟩

/-! ### `string.Template.safe_substitute` and `render_readme_if_missing` -/

/-- First character of a Python `Template` identifier: `[_a-zA-Z]`. -/
def idStart (c : Char) : Bool := c = '_' || c.isAlpha

/-- Later characters of a Python `Template` identifier: `[_a-zA-Z0-9]`. -/
def idContinue (c : Char) : Bool := c = '_' || c.isAlpha || c.isDigit

/-- Dictionary lookup for the substitution mapping. -/
def lookupSub (m : List (String × String)) (k : String) : Option String :=
  (m.find? (fun p => p.1 = k)).map (fun p => p.2)

/-- The scanner state of `Template.safe_substitute`'s regex pass: outside any
match, just after a `$`, inside `${...}` with the identifier characters read
so far, or inside a bare `$name` with the characters read so far. -/
inductive ScanState where
  | normal
  | afterDollar
  | braced (acc : List Char)
  | named (acc : List Char)

/-- What `safe_substitute` emits when a complete bare identifier `acc` has
been read: the mapped value, or the literal `$acc` when the name is
unresolved. -/
def emitNamed (m : List (String × String)) (acc : List Char) : List Char :=
  match lookupSub m (String.mk acc) with
  | some v => v.toList
  | none => '$' :: acc

/-- What `safe_substitute` emits for a complete `${acc}` group: the mapped
value, or the literal `${acc}` when the name is unresolved. -/
def emitBraced (m : List (String × String)) (acc : List Char) : List Char :=
  match lookupSub m (String.mk acc) with
  | some v => v.toList
  | none => '$' :: '{' :: acc ++ ['}']

/-- One left-to-right pass of `Template.safe_substitute` over the template:
`$$` becomes `$`; `$name` and `${name}` are replaced when `name` is in the
mapping and left verbatim otherwise; a `$` starting no valid group is left in
place and scanning resumes at the following character (Python's `invalid`
branch, which `safe_substitute` passes through unchanged). -/
def scanSub (m : List (String × String)) : ScanState → List Char → List Char
  | .normal, [] => []
  | .afterDollar, [] => ['$']
  | .braced acc, [] => '$' :: '{' :: acc
  | .named acc, [] => emitNamed m acc
  | .normal, c :: rest =>
    if c = '$' then scanSub m .afterDollar rest
    else c :: scanSub m .normal rest
  | .afterDollar, c :: rest =>
    if c = '$' then '$' :: scanSub m .normal rest
    else if c = '{' then scanSub m (.braced []) rest
    else if idStart c then scanSub m (.named [c]) rest
    else '$' :: c :: scanSub m .normal rest
  | .braced acc, c :: rest =>
    if acc.isEmpty then
      if idStart c then scanSub m (.braced [c]) rest
      else if c = '$' then '$' :: '{' :: scanSub m .afterDollar rest
      else '$' :: '{' :: c :: scanSub m .normal rest
    else
      if idContinue c then scanSub m (.braced (acc ++ [c])) rest
      else if c = '}' then emitBraced m acc ++ scanSub m .normal rest
      else if c = '$' then ('$' :: '{' :: acc) ++ scanSub m .afterDollar rest
      else ('$' :: '{' :: acc) ++ (c :: scanSub m .normal rest)
  | .named acc, c :: rest =>
    if idContinue c then scanSub m (.named (acc ++ [c])) rest
    else if c = '$' then emitNamed m acc ++ scanSub m .afterDollar rest
    else emitNamed m acc ++ (c :: scanSub m .normal rest)

/-- `Template(tpl).safe_substitute(m)`. -/
def safe_substitute (m : List (String × String)) (tpl : String) : String :=
  String.mk (scanSub m .normal tpl.toList)

example : safe_substitute [("A", "x")] "pre ${A} post" = "pre x post" := by decide
example : safe_substitute [("A", "x")] "pre $A post" = "pre x post" := by decide
example : safe_substitute [("A", "x")] "pre ${B} post" = "pre ${B} post" := by decide
example : safe_substitute [("A", "x")] "pre $B post" = "pre $B post" := by decide
example : safe_substitute [("A", "x")] "a $$A b" = "a $A b" := by decide
example : safe_substitute [("A", "x")] "tail $" = "tail $" := by decide
example : safe_substitute [("A", "x")] "$A$A" = "xx" := by decide
example : safe_substitute [("A", "x")] "a $1 b" = "a $1 b" := by decide

/-- `DEFAULT_README_TEMPLATE` from `build_outputs.py`, the built-in template
used when no `README.template.md` exists. -/
def DEFAULT_README_TEMPLATE : String :=
  "# ${PROJECT_NAME}\n\n![HEADER](./PICTURES/${HEADER_IMAGE}) <!-- 3D rendered pretty view -->\n\nINFO INFO\n\n[PCB layout](./DOCUMENTATION/${PCBLAYOUT_PDF}) <!-- PDFs of boards -->\n[SCHEMATIC](./DOCUMENTATION/${SCHEMATIC_PDF}) <!-- Schematic PDFs -->\n\n## FRONT\n![Front](./PICTURES/${PICTURE_FRONT})\n\n## BACK\n![Back](./PICTURES/${PICTURE_BACK})\n\n## SIDE\n![Side](./PICTURES/${PICTURE_SIDE})\n\n# Before major commmits\nRemember to run generate_outputs.bat/sh\nto update the outputs and pictures.\n"

/-- The filesystem facts `render_readme_if_missing` consults: the contents of
`root/README.md` if it exists, the (decoded) contents of
`root/README.template.md` if it exists, and the file names present in
`root/PICTURES`. -/
structure ReadmeFS where
  readme : Option String
  templateFile : Option String
  picsFiles : List String
deriving DecidableEq

/-- The header-image choice of `render_readme_if_missing`:
`iso_name if (pics_dir / iso_name).exists() else top_name`. -/
def header_image (picsFiles : List String) (project_name : String) : String :=
  if picsFiles.contains (project_name ++ "_iso.png") then project_name ++ "_iso.png"
  else project_name ++ "_top.png"

/-- The substitution dictionary `subs` built by `render_readme_if_missing`. -/
def readmeSubs (fs : ReadmeFS) (project_name : String) : List (String × String) :=
  [("PROJECT_NAME", project_name),
   ("HEADER_IMAGE", header_image fs.picsFiles project_name),
   ("PCBLAYOUT_PDF", project_name ++ "_board_prints.pdf"),
   ("SCHEMATIC_PDF", project_name ++ "_schematic.pdf"),
   ("PICTURE_FRONT", project_name ++ "_top.png"),
   ("PICTURE_BACK", project_name ++ "_bottom.png"),
   ("PICTURE_SIDE", project_name ++ "_side.png"),
   ("EXTRA_IMAGE", header_image fs.picsFiles project_name)]

/-- `render_readme_if_missing(root, project_name)` from `build_outputs.py`:
if `README.md` exists it is left untouched; otherwise the user template (or
the built-in default) is rendered through `Template(...).safe_substitute` and
written as `README.md`. -/
def render_readme_if_missing (fs : ReadmeFS) (project_name : String) : ReadmeFS :=
  match fs.readme with
  | some _ => fs
  | none =>
    let tpl :=
      match fs.templateFile with
      | some t => t
      | none => DEFAULT_README_TEMPLATE
    let rendered := safe_substitute (readmeSubs fs project_name) tpl
    { fs with readme := some rendered }

/-- `n` successive invocations of the summary-document step. -/
def renderTimes : Nat → ReadmeFS → String → ReadmeFS
  | 0, fs, _ => fs
  | n + 1, fs, p => renderTimes n (render_readme_if_missing fs p) p

example :
    (render_readme_if_missing ⟨none, some "hello ${PROJECT_NAME}", []⟩ "demo").readme =
      some "hello demo" := by decide
example :
    (render_readme_if_missing ⟨some "keep", some "hello ${PROJECT_NAME}", []⟩ "demo") =
      ⟨some "keep", some "hello ${PROJECT_NAME}", []⟩ := by decide
example :
    (render_readme_if_missing ⟨none, some "h ${HEADER_IMAGE}", ["demo_iso.png"]⟩ "demo").readme =
      some "h demo_iso.png" := by decide
example :
    (render_readme_if_missing ⟨none, some "h ${HEADER_IMAGE}", ["other.png"]⟩ "demo").readme =
      some "h demo_top.png" := by decide

/-! ## Claim C1: the shallow-path guard of `clear_dir` -/

/-- C1 counterexample: `clear_dir` on the 2-segment resolved path
`/PRODUCTION`, where the directory does not yet exist, fails fatally as the
claim says, but it has already touched the filesystem: `path.mkdir(parents=
True, exist_ok=True)` runs before the guard, so the directory exists
afterwards — contradicting "it does not create the directory". -/
theorem C1_shallow_clear_creates_directory :
    ((clear_dir ["/", "PRODUCTION"] ⟨false, []⟩).err.isSome = true) ∧
    ((clear_dir ["/", "PRODUCTION"] ⟨false, []⟩).state.present = true) := by decide

/-- C1 (amended): on a resolved path with fewer than 3 segments `clear_dir`
first creates the directory (and missing parents) and then fails fatally
without removing any entries; on a path with 3 or more segments, provided
every individual removal succeeds, the directory exists and is empty
afterwards, even if it did not exist beforehand. -/
theorem C1_clear_dir_guard (parts : List String) (st : DirState) :
    (parts.length < 3 →
      (clear_dir parts st).err =
          some (.runtimeError "Refusing to clear very shallow path") ∧
      (clear_dir parts st).state =
          ⟨true, if st.present then st.entries else []⟩) ∧
    (3 ≤ parts.length → (∀ e ∈ st.entries, e.removable = true) →
      (clear_dir parts st).err = none ∧ (clear_dir parts st).state = ⟨true, []⟩) := by
  constructor
  · intro h
    simp [clear_dir, h]
  · intro h hrem
    have h' : ¬ parts.length < 3 := by omega
    have hce : clearEntries (if st.present then st.entries else []) = ([], []) := by
      by_cases hp : st.present
      · simpa [hp] using clearEntries_all_removable st.entries hrem
      · simp [hp, clearEntries]
    simp [clear_dir, h', hce]

/-- C1 witness: a concrete 4-segment path, with one removable entry and the
directory present, clears to an existing empty directory; the guard case is
exercised at a concrete 2-segment path. -/
theorem C1_clear_dir_guard_witness :
    ((clear_dir ["/", "x"] ⟨true, [⟨"f", true, true⟩]⟩).err =
        some (.runtimeError "Refusing to clear very shallow path") ∧
      (clear_dir ["/", "x"] ⟨true, [⟨"f", true, true⟩]⟩).state =
        ⟨true, [⟨"f", true, true⟩]⟩) ∧
    ((clear_dir ["/", "home", "repo", "PRODUCTION"] ⟨true, [⟨"old.zip", true, true⟩]⟩).err =
        none ∧
      (clear_dir ["/", "home", "repo", "PRODUCTION"] ⟨true, [⟨"old.zip", true, true⟩]⟩).state =
        ⟨true, []⟩) :=
  ⟨(C1_clear_dir_guard ["/", "x"] ⟨true, [⟨"f", true, true⟩]⟩).1 (by decide),
   (C1_clear_dir_guard ["/", "home", "repo", "PRODUCTION"]
      ⟨true, [⟨"old.zip", true, true⟩]⟩).2 (by decide) (by decide)⟩

/-! ## Claim C2: naming of the vendor destination subfolder -/

/-- Every character produced by the sanitizer is in `[A-Za-z0-9_.-]`. -/
theorem subDisallowedGo_allowed (l : List Char) :
    ∀ b, ∀ c ∈ subDisallowedGo b l, sanitizeAllowed c = true := by
  induction l with
  | nil => intro b c hc; simp [subDisallowedGo] at hc
  | cons a t ih =>
    intro b c hc
    by_cases ha : sanitizeAllowed a
    · rw [subDisallowedGo, if_pos ha] at hc
      rcases List.mem_cons.mp hc with h | h
      · exact h ▸ ha
      · exact ih false c h
    · rw [subDisallowedGo, if_neg ha] at hc
      cases b with
      | true => exact ih true c (by simpa using hc)
      | false =>
        rcases List.mem_cons.mp (by simpa using hc) with h | h
        · subst h; decide
        · exact ih true c h

/-- C2 counterexample: for the vendor identifier `"My Vendor"` the packaging
step populates `my vendor_production` — the lowercased identifier verbatim,
space included — while the sanitized form required by the claim would give
`my-vendor_production`.  `_sanitize_vendor` is defined in the source but
never applied to the subfolder name. -/
theorem C2_vendor_folder_not_sanitized :
    (run_kikit_fab
        ⟨fun s => if s = "python" then some "/usr/bin/python" else none,
         fun _ => false, fun _ => 0⟩
        "My Vendor" "b.kicad_pcb" "b.kicad_sch" "PRODUCTION" none true []).vendorRoot =
      some "my vendor_production" ∧
    _sanitize_vendor "My Vendor" ++ "_production" = "my-vendor_production" ∧
    (run_kikit_fab
        ⟨fun s => if s = "python" then some "/usr/bin/python" else none,
         fun _ => false, fun _ => 0⟩
        "My Vendor" "b.kicad_pcb" "b.kicad_sch" "PRODUCTION" none true []).vendorRoot ≠
      some (_sanitize_vendor "My Vendor" ++ "_production") := by decide

/-- C2 (amended): the destination subfolder is named
`<vendor lowercased>_production` verbatim; the sanitizer (which lowercases
and collapses every run of characters outside letters/digits/`.`/`_`/`-` into
a single `-`, and whose output indeed only contains such characters) exists
in the source but is not applied, so the two agree exactly when lowercasing
already yields the sanitized form. -/
theorem C2_vendor_folder_name (env : Env) (vendor pcb sch out : String)
    (order_field : Option String) (clean : Bool) (pre : List Entry) (p : String)
    (hwhich : env.which "python" = some p) :
    (run_kikit_fab env vendor pcb sch out order_field clean pre).vendorRoot =
      some (pyLower vendor ++ "_production") ∧
    (∀ c ∈ (_sanitize_vendor vendor).toList, sanitizeAllowed c = true) ∧
    (pyLower vendor = _sanitize_vendor vendor →
      (run_kikit_fab env vendor pcb sch out order_field clean pre).vendorRoot =
        some (_sanitize_vendor vendor ++ "_production")) := by
  have hroot : (run_kikit_fab env vendor pcb sch out order_field clean pre).vendorRoot =
      some (pyLower vendor ++ "_production") := by
    simp only [run_kikit_fab, hwhich]
    split
    · rfl
    · split <;> rfl
  refine ⟨hroot, ?_, ?_⟩
  · exact fun c hc => subDisallowedGo_allowed _ false c hc
  · intro hsan
    rw [hroot, hsan]

/-- C2 witness: with `python` on the search path and the already-sanitized
vendor `jlcpcb`, the subfolder is `jlcpcb_production`. -/
theorem C2_vendor_folder_name_witness :
    (run_kikit_fab
        ⟨fun s => if s = "python" then some "/usr/bin/python" else none,
         fun _ => false, fun _ => 0⟩
        "jlcpcb" "b.kicad_pcb" "b.kicad_sch" "PRODUCTION" none true []).vendorRoot =
      some (_sanitize_vendor "jlcpcb" ++ "_production") :=
  (C2_vendor_folder_name
      ⟨fun s => if s = "python" then some "/usr/bin/python" else none,
       fun _ => false, fun _ => 0⟩
      "jlcpcb" "b.kicad_pcb" "b.kicad_sch" "PRODUCTION" none true []
      "/usr/bin/python" rfl).2.2 (by decide)

/-! ## Claim C3: interpreter lookup for the vendor packaging step -/

/-- C3 counterexample: in an environment where the resolved CLI at
`/opt/kicad/bin/kicad-cli` has a sibling interpreter `/opt/kicad/bin/python`
and `python3` is on the search path (but plain `python` is not), the
sibling lookup `find_kicad_python_from_kicad_cli` succeeds, yet
`run_kikit_fab` fails with FileNotFoundError — because it only consults
`shutil.which("python")` and never calls the sibling lookup.  So the claim
"fails with NotFound only when no interpreter can be located at all" is
false. -/
theorem C3_interpreter_lookup_divergence :
    find_kicad_python_from_kicad_cli
        ⟨fun s => if s = "python3" then some "/usr/bin/python3" else none,
         fun q => q = "/opt/kicad/bin/python", fun _ => 0⟩
        "/opt/kicad/bin/kicad-cli" = .ok "/opt/kicad/bin/python" ∧
    (run_kikit_fab
        ⟨fun s => if s = "python3" then some "/usr/bin/python3" else none,
         fun q => q = "/opt/kicad/bin/python", fun _ => 0⟩
        "jlcpcb" "b.kicad_pcb" "b.kicad_sch" "PRODUCTION" none true []).err =
      some (.fileNotFound "Python interpreter not found on PATH.") :=
  ⟨rfl, by decide⟩

/-- The clean loop of `run_kikit_fab` only ever raises an OS-level removal
error, never FileNotFoundError. -/
theorem kikitClean_no_fileNotFound (es : List Entry) (msg : String) :
    (kikitClean es).1 ≠ some (.fileNotFound msg) := by
  induction es with
  | nil => simp [kikitClean]
  | cons e rest ih =>
    by_cases h : e.removable
    · simpa [kikitClean, h] using ih
    · simp [kikitClean, h]

/-- C3 (amended): `run_kikit_fab` resolves its interpreter solely via
`shutil.which("python")` — the chosen interpreter is always exactly that
lookup's result — and it fails with FileNotFoundError precisely when `python`
is absent from the search path, regardless of any sibling interpreter next to
the resolved CLI or of a `python3` on the search path;
`find_kicad_python_from_kicad_cli` implements the sibling-then-fallback
lookup but is never invoked by the vendor packaging step. -/
theorem C3_run_kikit_fab_interpreter (env : Env) (vendor pcb sch out : String)
    (order_field : Option String) (clean : Bool) (pre : List Entry) :
    ((run_kikit_fab env vendor pcb sch out order_field clean pre).interpreter =
      env.which "python") ∧
    ((run_kikit_fab env vendor pcb sch out order_field clean pre).err =
        some (.fileNotFound "Python interpreter not found on PATH.") ↔
      env.which "python" = none) := by
  rcases hw : env.which "python" with _ | p
  · constructor
    · simp [run_kikit_fab, hw]
    · simp [run_kikit_fab, hw]
  · constructor
    · simp only [run_kikit_fab, hw]
      split
      · rfl
      · split <;> rfl
    · constructor
      · intro h
        exfalso
        simp only [run_kikit_fab, hw] at h
        split at h
        · rename_i e heq
          have h' : some e =
              some (PyErr.fileNotFound "Python interpreter not found on PATH.") := h
          rw [Option.some_inj] at h'
          rw [h'] at heq
          rcases hc : clean with _ | _
          · rw [hc] at heq; simp at heq
          · rw [hc] at heq
            simp only [if_true] at heq
            exact kikitClean_no_fileNotFound pre _ heq
        · split at h <;> simp at h
      · intro h
        cases h

/-- C3 witness: with `python` on the search path the step uses exactly it and
does not raise FileNotFoundError; with an empty search path it does. -/
theorem C3_run_kikit_fab_interpreter_witness :
    ((run_kikit_fab
        ⟨fun s => if s = "python" then some "/usr/bin/python" else none,
         fun _ => false, fun _ => 0⟩
        "jlcpcb" "b.kicad_pcb" "b.kicad_sch" "PRODUCTION" none true []).interpreter =
      some "/usr/bin/python") ∧
    ((run_kikit_fab ⟨fun _ => none, fun _ => false, fun _ => 0⟩
        "jlcpcb" "b.kicad_pcb" "b.kicad_sch" "PRODUCTION" none true []).err =
      some (.fileNotFound "Python interpreter not found on PATH.")) :=
  ⟨(C3_run_kikit_fab_interpreter
      ⟨fun s => if s = "python" then some "/usr/bin/python" else none,
       fun _ => false, fun _ => 0⟩
      "jlcpcb" "b.kicad_pcb" "b.kicad_sch" "PRODUCTION" none true []).1,
   ((C3_run_kikit_fab_interpreter ⟨fun _ => none, fun _ => false, fun _ => 0⟩
      "jlcpcb" "b.kicad_pcb" "b.kicad_sch" "PRODUCTION" none true []).2).mpr rfl⟩

/-! ## Claim C4: the vendor clean loop is not best-effort -/

/-- When every removal succeeds, the vendor clean loop removes everything. -/
theorem kikitClean_all_removable (es : List Entry)
    (h : ∀ e ∈ es, e.removable = true) : kikitClean es = (none, []) := by
  induction es with
  | nil => rfl
  | cons e rest ih =>
    have he : e.removable = true := h e (List.mem_cons_self e rest)
    simp [kikitClean, he, ih (fun x hx => h x (List.mem_cons_of_mem e hx))]

/-- The vendor clean loop stops at the first failing removal: that entry and
every later one stay in place. -/
theorem kikitClean_first_failure (es1 : List Entry) (e : Entry) (es2 : List Entry)
    (h1 : ∀ x ∈ es1, x.removable = true) (he : e.removable = false) :
    kikitClean (es1 ++ e :: es2) = (some (.osError e.name), e :: es2) := by
  induction es1 with
  | nil => simp [kikitClean, he]
  | cons a t ih =>
    have ha : a.removable = true := h1 a (List.mem_cons_self a t)
    simp only [List.cons_append, kikitClean, ha, if_true]
    exact ih (fun x hx => h1 x (List.mem_cons_of_mem a hx))

/-- C4 counterexample: the vendor subfolder holds `locked.tmp` (whose removal
fails) followed by the removable `stale`.  The clean loop of `run_kikit_fab`
raises at `locked.tmp` and aborts: `stale` is never removed, the pass does
not complete, and the packaging tool is never invoked — whereas the staging
manager's `clear_dir` loop on the same entries records a warning and
finishes the pass, removing `stale`. -/
theorem C4_vendor_clean_aborts :
    (run_kikit_fab
        ⟨fun s => if s = "python" then some "/usr/bin/python" else none,
         fun _ => false, fun _ => 0⟩
        "jlcpcb" "b.kicad_pcb" "b.kicad_sch" "PRODUCTION" none true
        [⟨"locked.tmp", true, false⟩, ⟨"stale", false, true⟩]).err =
      some (.osError "locked.tmp") ∧
    (run_kikit_fab
        ⟨fun s => if s = "python" then some "/usr/bin/python" else none,
         fun _ => false, fun _ => 0⟩
        "jlcpcb" "b.kicad_pcb" "b.kicad_sch" "PRODUCTION" none true
        [⟨"locked.tmp", true, false⟩, ⟨"stale", false, true⟩]).dirEntries =
      [⟨"locked.tmp", true, false⟩, ⟨"stale", false, true⟩] ∧
    (run_kikit_fab
        ⟨fun s => if s = "python" then some "/usr/bin/python" else none,
         fun _ => false, fun _ => 0⟩
        "jlcpcb" "b.kicad_pcb" "b.kicad_sch" "PRODUCTION" none true
        [⟨"locked.tmp", true, false⟩, ⟨"stale", false, true⟩]).cmd = none ∧
    clearEntries [⟨"locked.tmp", true, false⟩, ⟨"stale", false, true⟩] =
      ([⟨"locked.tmp", true, false⟩], ["Warning: could not remove locked.tmp"]) := by
  decide

/-- C4 (amended): the vendor clear has no per-entry error handling.  When
every removal succeeds it empties the subfolder and the tool is invoked;
but the first failing removal raises immediately — the failing entry and all
later entries (even removable ones) stay untouched, the pass does not
complete, and the packaging tool is never run.  Only `clear_dir` has
best-effort semantics. -/
theorem C4_vendor_clean_not_best_effort (env : Env) (vendor pcb sch out : String)
    (order_field : Option String) (pre : List Entry) (p : String)
    (hwhich : env.which "python" = some p) :
    ((∀ e ∈ pre, e.removable = true) →
      (run_kikit_fab env vendor pcb sch out order_field true pre).dirEntries = [] ∧
      (run_kikit_fab env vendor pcb sch out order_field true pre).cmd.isSome = true) ∧
    (∀ es1 e es2, pre = es1 ++ e :: es2 → (∀ x ∈ es1, x.removable = true) →
      e.removable = false →
      (run_kikit_fab env vendor pcb sch out order_field true pre).err =
          some (.osError e.name) ∧
      (run_kikit_fab env vendor pcb sch out order_field true pre).dirEntries =
          e :: es2 ∧
      (run_kikit_fab env vendor pcb sch out order_field true pre).cmd = none) := by
  constructor
  · intro hall
    have hk : kikitClean pre = (none, []) := kikitClean_all_removable pre hall
    simp only [run_kikit_fab, hwhich, if_true, hk]
    split
    · simp
    · simp
  · intro es1 e es2 hpre h1 he
    have hk : kikitClean pre = (some (.osError e.name), e :: es2) := by
      rw [hpre]; exact kikitClean_first_failure es1 e es2 h1 he
    simp [run_kikit_fab, hwhich, hk]

/-- C4 witness: a subfolder of two removable entries is emptied and the tool
runs; the decomposition `[] ++ locked :: [stale]` exercises the abort case. -/
theorem C4_vendor_clean_not_best_effort_witness :
    ((run_kikit_fab
        ⟨fun s => if s = "python" then some "/usr/bin/python" else none,
         fun _ => false, fun _ => 0⟩
        "jlcpcb" "b.kicad_pcb" "b.kicad_sch" "PRODUCTION" none true
        [⟨"a", true, true⟩, ⟨"b", false, true⟩]).dirEntries = [] ∧
      (run_kikit_fab
        ⟨fun s => if s = "python" then some "/usr/bin/python" else none,
         fun _ => false, fun _ => 0⟩
        "jlcpcb" "b.kicad_pcb" "b.kicad_sch" "PRODUCTION" none true
        [⟨"a", true, true⟩, ⟨"b", false, true⟩]).cmd.isSome = true) ∧
    (run_kikit_fab
        ⟨fun s => if s = "python" then some "/usr/bin/python" else none,
         fun _ => false, fun _ => 0⟩
        "jlcpcb" "b.kicad_pcb" "b.kicad_sch" "PRODUCTION" none true
        [⟨"locked.tmp", true, false⟩, ⟨"stale", false, true⟩]).err =
      some (.osError "locked.tmp") :=
  ⟨(C4_vendor_clean_not_best_effort
      ⟨fun s => if s = "python" then some "/usr/bin/python" else none,
       fun _ => false, fun _ => 0⟩
      "jlcpcb" "b.kicad_pcb" "b.kicad_sch" "PRODUCTION" none
      [⟨"a", true, true⟩, ⟨"b", false, true⟩]
      "/usr/bin/python" rfl).1 (by decide),
   ((C4_vendor_clean_not_best_effort
      ⟨fun s => if s = "python" then some "/usr/bin/python" else none,
       fun _ => false, fun _ => 0⟩
      "jlcpcb" "b.kicad_pcb" "b.kicad_sch" "PRODUCTION" none
      [⟨"locked.tmp", true, false⟩, ⟨"stale", false, true⟩]
      "/usr/bin/python" rfl).2 [] ⟨"locked.tmp", true, false⟩ [⟨"stale", false, true⟩]
      rfl (by decide) rfl).1⟩

/-! ## Claim C5: tolerated exit code 2 still requires the STEP file -/

/-- C5: `export_3d` accepts exit codes 0 and 2 for the STEP invocation, but
after a tolerated exit it checks that the STEP file exists; when the tool
exits with the tolerated code 2 and no file was produced, the run fails
fatally at the 3D-export step and no later export step executes. -/
theorem C5_step_tolerated_exit_checks_file (tb : ToolBehavior) (make_glb : Bool)
    (stem : String) (pics docs fab : Except String Unit) :
    (tb.stepExit = 2 → tb.stepProduced = false →
      mainExports tb make_glb stem pics docs fab =
        ⟨["export_3d"], some "STEP export did not produce a file."⟩) ∧
    (tb.stepProduced = true → (tb.stepExit = 0 ∨ tb.stepExit = 2) →
      export_3d tb false stem = .ok (stem ++ ".step")) := by
  constructor
  · intro hexit hprod
    have hrun : run tb.stepExit [0, 2] = .ok () := by simp [run, hexit]
    simp [mainExports, export_3d, hrun, hprod]
  · intro hprod hexit
    have hrun : run tb.stepExit [0, 2] = .ok () := by
      rcases hexit with h | h <;> simp [run, h]
    simp [export_3d, hrun, hprod]

/-- C5 witness: with exit code 2 and no STEP file on disk, only the 3D step
ran and the run failed with the file-check error; with exit code 2 and the
file present, the STEP export succeeds. -/
theorem C5_step_tolerated_exit_checks_file_witness :
    mainExports ⟨2, false, 0, false⟩ false "demo" (.ok ()) (.ok ()) (.ok ()) =
      ⟨["export_3d"], some "STEP export did not produce a file."⟩ ∧
    export_3d ⟨2, true, 0, false⟩ false "demo" = .ok ("demo" ++ ".step") :=
  ⟨(C5_step_tolerated_exit_checks_file ⟨2, false, 0, false⟩ false "demo"
      (.ok ()) (.ok ()) (.ok ())).1 rfl rfl,
   (C5_step_tolerated_exit_checks_file ⟨2, true, 0, false⟩ false "demo"
      (.ok ()) (.ok ()) (.ok ())).2 rfl (Or.inr rfl)⟩

/-! ## Claim C10: the GLB invocation tolerates code 2 with no file check -/

/-- C10: when the GLB export is requested, its invocation also accepts exit
codes 0 and 2, but `export_3d` never checks that the GLB file exists: the
result does not depend on `glbProduced` at all, and a tolerated non-zero GLB
exit with no GLB file still yields success. -/
theorem C10_glb_tolerated_exit_no_file_check (tb : ToolBehavior) (stem : String)
    (hstep : tb.stepExit = 0 ∨ tb.stepExit = 2) (hprod : tb.stepProduced = true)
    (hglb : tb.glbExit = 0 ∨ tb.glbExit = 2) :
    export_3d tb true stem = .ok (stem ++ ".step") ∧
    (∀ b, export_3d ⟨tb.stepExit, tb.stepProduced, tb.glbExit, b⟩ true stem =
      export_3d tb true stem) := by
  constructor
  · have hrun : run tb.stepExit [0, 2] = .ok () := by
      rcases hstep with h | h <;> simp [run, h]
    have hrun2 : run tb.glbExit [0, 2] = .ok () := by
      rcases hglb with h | h <;> simp [run, h]
    simp [export_3d, hrun, hrun2, hprod]
  · intro b
    rfl

/-- C10 witness: GLB invocation exits 2, the GLB file is absent, yet the 3D
export step succeeds. -/
theorem C10_glb_tolerated_exit_no_file_check_witness :
    export_3d ⟨0, true, 2, false⟩ true "demo" = .ok ("demo" ++ ".step") :=
  (C10_glb_tolerated_exit_no_file_check ⟨0, true, 2, false⟩ "demo"
    (Or.inl rfl) rfl (Or.inr rfl)).1

/-! ## Claim C6: an existing README is never modified -/

/-- C6: when `README.md` already exists, the summary-document step leaves the
whole filesystem state — in particular the file's contents, byte for byte —
unchanged, for any number of repeated invocations. -/
theorem C6_readme_idempotent (fs : ReadmeFS) (p : String) (c : String)
    (h : fs.readme = some c) :
    ∀ n, renderTimes n fs p = fs ∧ (renderTimes n fs p).readme = some c := by
  have hstep : render_readme_if_missing fs p = fs := by
    simp [render_readme_if_missing, h]
  intro n
  induction n with
  | zero => exact ⟨rfl, h⟩
  | succ k ih =>
    refine ⟨?_, ?_⟩
    · calc renderTimes (k + 1) fs p
          = renderTimes k (render_readme_if_missing fs p) p := rfl
        _ = renderTimes k fs p := by rw [hstep]
        _ = fs := ih.1
    · calc (renderTimes (k + 1) fs p).readme
          = (renderTimes k fs p).readme := by
            show (renderTimes k (render_readme_if_missing fs p) p).readme = _
            rw [hstep]
        _ = some c := ih.2

/-- C6 witness: five runs over a root whose README holds user edits leave it
byte-for-byte intact. -/
theorem C6_readme_idempotent_witness :
    renderTimes 5 ⟨some "my edited readme", some "tpl", ["demo_iso.png"]⟩ "demo" =
      ⟨some "my edited readme", some "tpl", ["demo_iso.png"]⟩ ∧
    (renderTimes 5 ⟨some "my edited readme", some "tpl", ["demo_iso.png"]⟩ "demo").readme =
      some "my edited readme" :=
  ⟨(C6_readme_idempotent ⟨some "my edited readme", some "tpl", ["demo_iso.png"]⟩
      "demo" "my edited readme" rfl 5).1,
   (C6_readme_idempotent ⟨some "my edited readme", some "tpl", ["demo_iso.png"]⟩
      "demo" "my edited readme" rfl 5).2⟩

/-! ## Claim C8: production-folder selection policy -/

/-- Two-digit zero-padded rendering is injective below 60 (the range of the
minute field), so tags from different minutes differ. -/
theorem padNum_two_inj_below_60 :
    ∀ m1 m2 : Fin 60, padNum 2 m1.val = padNum 2 m2.val → m1 = m2 := by decide

/-- The tag ignores the seconds field: `%Y%m%d_%H%M` stops at minutes. -/
theorem timestamp_tag_minute_granularity (c : Clock) (s : Nat) :
    timestamp_tag ⟨c.year, c.month, c.day, c.hour, c.minute, s⟩ = timestamp_tag c := rfl

/-- Clocks that agree up to the hour but differ in the (in-range) minute give
different tags. -/
theorem timestamp_tag_minute_distinct (c c' : Clock)
    (hy : c'.year = c.year) (hmo : c'.month = c.month) (hd : c'.day = c.day)
    (hh : c'.hour = c.hour) (hm' : c'.minute < 60) (hm : c.minute < 60)
    (hne : c'.minute ≠ c.minute) : timestamp_tag c' ≠ timestamp_tag c := by
  intro heq
  unfold timestamp_tag at heq
  rw [hy, hmo, hd, hh] at heq
  have hdata := congrArg String.data heq
  simp only [String.data_append] at hdata
  have htail : (padNum 2 c'.minute).data = (padNum 2 c.minute).data :=
    List.append_cancel_left hdata
  have : padNum 2 c'.minute = padNum 2 c.minute :=
    congrArg String.mk htail
  have := padNum_two_inj_below_60 ⟨c'.minute, hm'⟩ ⟨c.minute, hm⟩ this
  exact hne (congrArg Fin.val this)

/-- C8: with `--no-timestamp` the production directory is
`<root>/<prod_dir>/<proj_stem>` and is cleared before being populated (empty
afterwards when every removal succeeds — the root path is nonempty so the
shallow-path guard passes for any repository at depth 1 or more); otherwise
it is `<root>/<prod_dir>/<timestamp>_<proj_stem>`, the timestamp ignores
seconds (minute granularity), no clear is performed (prior contents are
preserved), and runs in different minutes use distinct folder names. -/
theorem C8_production_folder_policy (no_timestamp : Bool) (rootParts : List String)
    (prod_dir proj_stem : String) (c : Clock) (st : DirState) :
    (no_timestamp = true →
      (productionSetup no_timestamp rootParts prod_dir proj_stem c st).pathParts =
          rootParts ++ [prod_dir, proj_stem] ∧
      (productionSetup no_timestamp rootParts prod_dir proj_stem c st).clearCalled = true ∧
      (1 ≤ rootParts.length → (∀ e ∈ st.entries, e.removable = true) →
        (productionSetup no_timestamp rootParts prod_dir proj_stem c st).state =
          ⟨true, []⟩)) ∧
    (no_timestamp = false →
      (productionSetup no_timestamp rootParts prod_dir proj_stem c st).pathParts =
          rootParts ++ [prod_dir, timestamp_tag c ++ "_" ++ proj_stem] ∧
      (productionSetup no_timestamp rootParts prod_dir proj_stem c st).clearCalled = false ∧
      (productionSetup no_timestamp rootParts prod_dir proj_stem c st).state.entries =
          (if st.present then st.entries else []) ∧
      (∀ s, timestamp_tag ⟨c.year, c.month, c.day, c.hour, c.minute, s⟩ =
        timestamp_tag c) ∧
      (∀ c' : Clock, c'.year = c.year → c'.month = c.month → c'.day = c.day →
        c'.hour = c.hour → c'.minute < 60 → c.minute < 60 → c'.minute ≠ c.minute →
        rootParts ++ [prod_dir, timestamp_tag c' ++ "_" ++ proj_stem] ≠
          rootParts ++ [prod_dir, timestamp_tag c ++ "_" ++ proj_stem])) := by
  constructor
  · intro h
    subst h
    refine ⟨rfl, rfl, ?_⟩
    intro hdepth hrem
    have hguard : ¬ rootParts.length + 2 < 3 := by omega
    have hce : clearEntries (if st.present then st.entries else []) = ([], []) := by
      by_cases hp : st.present
      · simpa [hp] using clearEntries_all_removable st.entries hrem
      · simp [hp, clearEntries]
    simp [productionSetup, clear_dir, hguard, hce]
  · intro h
    subst h
    refine ⟨rfl, rfl, rfl, fun s => rfl, ?_⟩
    intro c' hy hmo hd hh hm' hm hne heq
    have := List.append_cancel_left heq
    have htag : timestamp_tag c' ++ "_" ++ proj_stem =
        timestamp_tag c ++ "_" ++ proj_stem := by
      injection this with h1 h2
      injection h2 with h3 h4
    have htag' : timestamp_tag c' = timestamp_tag c := by
      have hdata := congrArg String.data htag
      simp only [String.data_append] at hdata
      have h5 := List.append_cancel_right hdata
      have h6 := List.append_cancel_right h5
      exact congrArg String.mk h6
    exact timestamp_tag_minute_distinct c c' hy hmo hd hh hm' hm hne htag'

/-- C8 witness: fixed mode resolves to `PRODUCTION/demo` under the root and
clears it; timestamped mode resolves to `PRODUCTION/20250115_1342_demo`,
keeps the old entry, and a run one minute later lands in a different folder. -/
theorem C8_production_folder_policy_witness :
    ((productionSetup true ["/", "repo"] "PRODUCTION" "demo"
        ⟨2025, 1, 15, 13, 42, 7⟩ ⟨true, [⟨"old", true, true⟩]⟩).pathParts =
      ["/", "repo"] ++ ["PRODUCTION", "demo"] ∧
      (productionSetup true ["/", "repo"] "PRODUCTION" "demo"
        ⟨2025, 1, 15, 13, 42, 7⟩ ⟨true, [⟨"old", true, true⟩]⟩).state = ⟨true, []⟩) ∧
    ((productionSetup false ["/", "repo"] "PRODUCTION" "demo"
        ⟨2025, 1, 15, 13, 42, 7⟩ ⟨true, [⟨"old", true, true⟩]⟩).state.entries =
      [⟨"old", true, true⟩] ∧
      ["/", "repo"] ++ ["PRODUCTION", timestamp_tag ⟨2025, 1, 15, 13, 43, 7⟩ ++ "_" ++ "demo"] ≠
        ["/", "repo"] ++ ["PRODUCTION", timestamp_tag ⟨2025, 1, 15, 13, 42, 7⟩ ++ "_" ++ "demo"]) := by
  refine ⟨⟨?_, ?_⟩, ?_, ?_⟩
  · exact ((C8_production_folder_policy true ["/", "repo"] "PRODUCTION" "demo"
      ⟨2025, 1, 15, 13, 42, 7⟩ ⟨true, [⟨"old", true, true⟩]⟩).1 rfl).1
  · exact ((C8_production_folder_policy true ["/", "repo"] "PRODUCTION" "demo"
      ⟨2025, 1, 15, 13, 42, 7⟩ ⟨true, [⟨"old", true, true⟩]⟩).1 rfl).2.2
      (by decide) (by decide)
  · have h := ((C8_production_folder_policy false ["/", "repo"] "PRODUCTION" "demo"
      ⟨2025, 1, 15, 13, 42, 7⟩ ⟨true, [⟨"old", true, true⟩]⟩).2 rfl).2.2.1
    simpa using h
  · exact ((C8_production_folder_policy false ["/", "repo"] "PRODUCTION" "demo"
      ⟨2025, 1, 15, 13, 42, 7⟩ ⟨true, [⟨"old", true, true⟩]⟩).2 rfl).2.2.2.2
      ⟨2025, 1, 15, 13, 43, 7⟩ rfl rfl rfl rfl (by decide) (by decide) (by decide)

/-! ## Claim C9: unresolved placeholders pass through verbatim -/

/-- A stretch of template text containing no `$` is copied verbatim. -/
theorem scanSub_literal (m : List (String × String)) (l r : List Char)
    (h : '$' ∉ l) :
    scanSub m .normal (l ++ r) = l ++ scanSub m .normal r := by
  induction l with
  | nil => rfl
  | cons c t ih =>
    have hc : ¬ c = '$' := fun e => h (by rw [e]; exact List.mem_cons_self '$' t)
    have ht : '$' ∉ t := fun hm => h (List.mem_cons_of_mem c hm)
    simp only [List.cons_append, scanSub, if_neg hc]
    exact congrArg (fun l => c :: l) (ih ht)

/-- A whole template without `$` is returned unchanged. -/
theorem scanSub_literal_all (m : List (String × String)) (l : List Char)
    (h : '$' ∉ l) : scanSub m .normal l = l := by
  have := scanSub_literal m l [] h
  simpa [scanSub] using this

/-- Accumulation step for `${...}` groups: with a nonempty partial identifier
`acc` and further identifier characters `tl` ending at `}`, the scanner emits
the group for `acc ++ tl` and resumes normally. -/
theorem scanSub_braced_go (m : List (String × String)) (tl rest : List Char) :
    ∀ acc : List Char, acc ≠ [] → (∀ c ∈ tl, idContinue c = true) →
      scanSub m (.braced acc) (tl ++ '}' :: rest) =
        emitBraced m (acc ++ tl) ++ scanSub m .normal rest := by
  induction tl with
  | nil =>
    intro acc hacc _
    have hne : acc.isEmpty = false := by
      cases acc with
      | nil => exact absurd rfl hacc
      | cons a t => rfl
    have h1 : idContinue '}' = false := by decide
    simp [scanSub, hne, h1]
  | cons c t ih =>
    intro acc hacc hall
    have hc : idContinue c = true := hall c (List.mem_cons_self c t)
    have hne : acc.isEmpty = false := by
      cases acc with
      | nil => exact absurd rfl hacc
      | cons a t2 => rfl
    have step : scanSub m (.braced acc) ((c :: t) ++ '}' :: rest) =
        scanSub m (.braced (acc ++ [c])) (t ++ '}' :: rest) := by
      simp [scanSub, hne, hc]
    rw [step, ih (acc ++ [c]) (by simp) (fun x hx => hall x (List.mem_cons_of_mem c hx))]
    simp

/-- A full `${name}` group: substituted or passed through via `emitBraced`. -/
theorem scanSub_braced (m : List (String × String)) (d : Char) (tl rest : List Char)
    (hd : idStart d = true) (htl : ∀ c ∈ tl, idContinue c = true) :
    scanSub m .normal ('$' :: '{' :: d :: (tl ++ '}' :: rest)) =
      emitBraced m (d :: tl) ++ scanSub m .normal rest := by
  have h1 : scanSub m .normal ('$' :: '{' :: d :: (tl ++ '}' :: rest)) =
      scanSub m (.braced [d]) (tl ++ '}' :: rest) := by
    simp [scanSub, hd]
  rw [h1, scanSub_braced_go m tl rest [d] (by simp) htl]
  simp

/-- Accumulation step for bare `$name` groups terminated by a non-identifier
character other than `$`. -/
theorem scanSub_named_go (m : List (String × String)) (tl : List Char)
    (c : Char) (rest : List Char) (hcont : idContinue c = false) (hdol : ¬ c = '$') :
    ∀ acc : List Char, (∀ x ∈ tl, idContinue x = true) →
      scanSub m (.named acc) (tl ++ c :: rest) =
        emitNamed m (acc ++ tl) ++ (c :: scanSub m .normal rest) := by
  induction tl with
  | nil =>
    intro acc _
    simp [scanSub, hcont, hdol]
  | cons x t ih =>
    intro acc hall
    have hx : idContinue x = true := hall x (List.mem_cons_self x t)
    have step : scanSub m (.named acc) ((x :: t) ++ c :: rest) =
        scanSub m (.named (acc ++ [x])) (t ++ c :: rest) := by
      simp [scanSub, hx]
    rw [step, ih (acc ++ [x]) (fun y hy => hall y (List.mem_cons_of_mem x hy))]
    simp

/-- C9: substitution never fails on an unresolved placeholder — `scanSub` is
a total function — and the placeholder's literal text passes through
unchanged: for any mapping, any `$`-free prefix, and any placeholder name
(valid identifier `d :: tl`) not bound in the mapping, both the `${name}`
form and the bare `$name` form (terminated by a non-identifier character)
appear verbatim in the output, with scanning simply continuing afterwards. -/
theorem C9_unresolved_placeholder_verbatim (m : List (String × String))
    (d : Char) (tl pre rest : List Char)
    (hd : idStart d = true) (htl : ∀ c ∈ tl, idContinue c = true)
    (hpre : '$' ∉ pre)
    (hnone : lookupSub m (String.mk (d :: tl)) = none) :
    scanSub m .normal (pre ++ '$' :: '{' :: d :: (tl ++ '}' :: rest)) =
      pre ++ '$' :: '{' :: d :: (tl ++ '}' :: scanSub m .normal rest) ∧
    (∀ c rest2, idContinue c = false → ¬ c = '$' →
      scanSub m .normal (pre ++ '$' :: d :: (tl ++ c :: rest2)) =
        pre ++ '$' :: d :: (tl ++ c :: scanSub m .normal rest2)) := by
  have hd1 : ¬ d = '$' := fun e => by rw [e] at hd; exact absurd hd (by decide)
  have hd2 : ¬ d = '{' := fun e => by rw [e] at hd; exact absurd hd (by decide)
  constructor
  · rw [scanSub_literal m pre _ hpre, scanSub_braced m d tl rest hd htl]
    simp [emitBraced, hnone]
  · intro c rest2 hcont hdol
    rw [scanSub_literal m pre _ hpre]
    have h1 : scanSub m .normal ('$' :: d :: (tl ++ c :: rest2)) =
        scanSub m (.named [d]) (tl ++ c :: rest2) := by
      simp [scanSub, hd, hd1, hd2]
    rw [h1, scanSub_named_go m tl c rest2 hcont hdol [d] htl]
    simp [emitNamed, hnone]

/-- C9 witness: with only `A` bound, both `${B}` and `$B` survive verbatim in
a concrete template. -/
theorem C9_unresolved_placeholder_verbatim_witness :
    scanSub [("A", "x")] .normal ("p ".toList ++ '$' :: '{' :: 'B' ::
        ([] ++ '}' :: " q".toList)) =
      "p ".toList ++ '$' :: '{' :: 'B' :: ([] ++ '}' ::
        scanSub [("A", "x")] .normal " q".toList) ∧
    scanSub [("A", "x")] .normal ("p ".toList ++ '$' :: 'B' ::
        ([] ++ ' ' :: "q".toList)) =
      "p ".toList ++ '$' :: 'B' :: ([] ++ ' ' ::
        scanSub [("A", "x")] .normal "q".toList) :=
  ⟨(C9_unresolved_placeholder_verbatim [("A", "x")] 'B' [] "p ".toList " q".toList
      (by decide) (by decide) (by decide) (by decide)).1,
   (C9_unresolved_placeholder_verbatim [("A", "x")] 'B' [] "p ".toList " q".toList
      (by decide) (by decide) (by decide) (by decide)).2 ' ' "q".toList
      (by decide) (by decide)⟩

/-! ## Claim C7: the header image reference of a freshly generated README -/

/-- A single non-`$` character is copied and scanning continues. -/
theorem scanSub_cons_ne (m : List (String × String)) (c : Char) (rest : List Char)
    (h : ¬ c = '$') :
    scanSub m .normal (c :: rest) = c :: scanSub m .normal rest := by
  simp [scanSub, h]

/-- C7: when no README exists yet (and no user template overrides the
built-in one), the substitution mapping sends `HEADER_IMAGE` to the
isometric filename `<project>_iso.png` exactly when that file is present in
the picture directory and to `<project>_top.png` otherwise, and the
generated document contains the header reference
`![HEADER](./PICTURES/<that filename>)` verbatim. -/
theorem C7_header_image_reference (fs : ReadmeFS) (p : String)
    (hmissing : fs.readme = none) (htpl : fs.templateFile = none) :
    lookupSub (readmeSubs fs p) "HEADER_IMAGE" =
        some (header_image fs.picsFiles p) ∧
    header_image fs.picsFiles p =
      (if fs.picsFiles.contains (p ++ "_iso.png") then p ++ "_iso.png"
       else p ++ "_top.png") ∧
    ∃ r, (render_readme_if_missing fs p).readme = some r ∧
      ("![HEADER](./PICTURES/" ++ header_image fs.picsFiles p ++ ")").toList <:+:
        r.toList := by
  refine ⟨rfl, rfl,
    safe_substitute (readmeSubs fs p) DEFAULT_README_TEMPLATE, ?_, ?_⟩
  · simp [render_readme_if_missing, hmissing, htpl]
  · show ("![HEADER](./PICTURES/" ++ header_image fs.picsFiles p ++ ")").toList <:+:
      scanSub (readmeSubs fs p) .normal DEFAULT_README_TEMPLATE.toList
    have hdecomp : DEFAULT_README_TEMPLATE.toList =
        "# ".toList ++ '$' :: '{' :: 'P' :: ("ROJECT_NAME".toList ++ '}' ::
          (("\n\n".toList ++ "![HEADER](./PICTURES/".toList) ++ '$' :: '{' :: 'H' ::
            ("EADER_IMAGE".toList ++ '}' :: ')' ::
              " <!-- 3D rendered pretty view -->\n\nINFO INFO\n\n[PCB layout](./DOCUMENTATION/${PCBLAYOUT_PDF}) <!-- PDFs of boards -->\n[SCHEMATIC](./DOCUMENTATION/${SCHEMATIC_PDF}) <!-- Schematic PDFs -->\n\n## FRONT\n![Front](./PICTURES/${PICTURE_FRONT})\n\n## BACK\n![Back](./PICTURES/${PICTURE_BACK})\n\n## SIDE\n![Side](./PICTURES/${PICTURE_SIDE})\n\n# Before major commmits\nRemember to run generate_outputs.bat/sh\nto update the outputs and pictures.\n".toList))) := by
      decide
    have e1 : emitBraced (readmeSubs fs p) ('P' :: "ROJECT_NAME".toList) = p.toList := rfl
    have e2 : emitBraced (readmeSubs fs p) ('H' :: "EADER_IMAGE".toList) =
        (header_image fs.picsFiles p).toList := rfl
    rw [hdecomp,
      scanSub_literal (readmeSubs fs p) "# ".toList _ (by decide),
      scanSub_braced (readmeSubs fs p) 'P' "ROJECT_NAME".toList _ (by decide) (by decide),
      e1,
      scanSub_literal (readmeSubs fs p) ("\n\n".toList ++ "![HEADER](./PICTURES/".toList) _
        (by decide),
      scanSub_braced (readmeSubs fs p) 'H' "EADER_IMAGE".toList _ (by decide) (by decide),
      e2,
      scanSub_cons_ne (readmeSubs fs p) ')' _ (by decide)]
    refine ⟨"# ".toList ++ p.toList ++ "\n\n".toList,
      scanSub (readmeSubs fs p) .normal
        " <!-- 3D rendered pretty view -->\n\nINFO INFO\n\n[PCB layout](./DOCUMENTATION/${PCBLAYOUT_PDF}) <!-- PDFs of boards -->\n[SCHEMATIC](./DOCUMENTATION/${SCHEMATIC_PDF}) <!-- Schematic PDFs -->\n\n## FRONT\n![Front](./PICTURES/${PICTURE_FRONT})\n\n## BACK\n![Back](./PICTURES/${PICTURE_BACK})\n\n## SIDE\n![Side](./PICTURES/${PICTURE_SIDE})\n\n# Before major commmits\nRemember to run generate_outputs.bat/sh\nto update the outputs and pictures.\n".toList,
      ?_⟩
    have hinf : ("![HEADER](./PICTURES/" ++ header_image fs.picsFiles p ++ ")").toList =
        "![HEADER](./PICTURES/".toList ++ (header_image fs.picsFiles p).toList ++
          [')'] := by
      show (("![HEADER](./PICTURES/" ++ header_image fs.picsFiles p ++ ")")).data = _
      simp [String.data_append, String.toList]
    rw [hinf]
    simp [List.append_assoc]

/-- C7 witness: for project `demo` with `demo_iso.png` present the generated
README references the isometric render; without it, the top view. -/
theorem C7_header_image_reference_witness :
    (lookupSub (readmeSubs ⟨none, none, ["demo_iso.png"]⟩ "demo") "HEADER_IMAGE" =
      some (header_image ["demo_iso.png"] "demo") ∧
      header_image ["demo_iso.png"] "demo" = "demo_iso.png") ∧
    (∃ r, (render_readme_if_missing ⟨none, none, []⟩ "demo").readme = some r ∧
      ("![HEADER](./PICTURES/" ++ header_image [] "demo" ++ ")").toList <:+:
        r.toList) :=
  ⟨⟨(C7_header_image_reference ⟨none, none, ["demo_iso.png"]⟩ "demo" rfl rfl).1,
    by decide⟩,
   (C7_header_image_reference ⟨none, none, []⟩ "demo" rfl rfl).2.2⟩

end BuildOutputs
